import Mathlib

/-!
Verification of the `alarmdecoder` package (AD2PI protocol decoder).

The Go source is embedded shallowly:

* `Message` mirrors the Go struct `Message` field for field.
* `parseMessage` mirrors `ParseMessage` (decoder.go).  Go strings are modelled
  as `List Char` at the byte level (all inputs of interest are ASCII, where Go
  byte indexing and character indexing coincide).  `strings.Split(s, ",")` is
  modelled by `splitComma` (identical semantics for a one-character
  separator).  Go's `(Message, error)` return is modelled by `ParseResult`:
  `ok m` for a nil error, `err returned e` for a non-nil error together with
  the message value that accompanies it (the Go code always returns
  `Message{}` there), and `panic` for a runtime index/slice-out-of-range
  fault, which in Go aborts instead of returning.
* The bit-field reads `bits[1] .. bits[5]` and the slice `bits[6:7]` each
  fault whenever `len(bits) < 7`, so they are folded into a single length
  guard placed, like in the source, before the beep conversion; the reads
  `bits[7] .. bits[16]` and the slice `bits[18:19]` fault whenever
  `len(bits) < 19` and are folded into a single guard placed after it.
* `strconv.Atoi` is only ever applied to the one-character slice
  `bits[6:7]`; on a one-character string it succeeds exactly on a decimal
  digit, returning its value, which is `atoi1`.
* `strings.TrimSpace` is `goTrimSpace`, trimming the Latin-1 white-space
  characters recognised by `unicode.IsSpace` from both ends (every input in
  the claims is ASCII).
* `bufio.Scanner` with its default `ScanLines` split function is modelled by
  `takeLine` / `scan1`; the underlying reader is a list of chunks delivered
  in order, followed by end of stream.
-/

/-- Message mirrors the Go struct `Message` of the decoder package. -/
structure Message where
  UnparsedMessage : String
  Ready : Bool
  ArmedAway : Bool
  ArmedHome : Bool
  BacklightOn : Bool
  ProgrammingMode : Bool
  Beeps : Nat
  ZoneBypassed : Bool
  ACPower : Bool
  ChimeEnabled : Bool
  AlarmHasOccured : Bool
  AlarmSounding : Bool
  BatteryLow : Bool
  EntryDelayDisabled : Bool
  Fire : Bool
  SystemIssue : Bool
  PerimeterOnly : Bool
  Mode : String
  Zone : String
  RawData : String
  KeypadMessage : String
deriving DecidableEq, Repr

/-- Message.zero is the Go zero value `Message{}`: every field at its zero. -/
def Message.zero : Message :=
  { UnparsedMessage := ""
    Ready := false, ArmedAway := false, ArmedHome := false
    BacklightOn := false, ProgrammingMode := false
    Beeps := 0
    ZoneBypassed := false, ACPower := false, ChimeEnabled := false
    AlarmHasOccured := false, AlarmSounding := false, BatteryLow := false
    EntryDelayDisabled := false, Fire := false, SystemIssue := false
    PerimeterOnly := false
    Mode := "", Zone := "", RawData := "", KeypadMessage := "" }

/-- GoError models the two non-nil error values `ParseMessage` can return:
the `errors.Errorf("expected 4 parts got: %#v", parts)` value, which carries
the actual segments seen, and the error returned by `strconv.Atoi` on the
one-character slice `bits[6:7]`, which carries that slice. -/
inductive GoError where
  | expected4Parts (parts : List (List Char))
  | atoiError (arg : List Char)
deriving DecidableEq, Repr

/-- ParseResult models the outcome of calling `ParseMessage` in Go: a normal
return with a nil error, a normal return with a non-nil error (carrying the
message value returned alongside it), or a runtime panic (index or slice out
of range), which never returns at all. -/
inductive ParseResult where
  | ok (m : Message)
  | err (returned : Message) (e : GoError)
  | panic
deriving DecidableEq, Repr

/-- atoi1 models `strconv.Atoi` applied to a one-character string: it
succeeds exactly on a decimal digit `'0'..'9'` and returns its value. -/
def atoi1 (c : Char) : Option Nat :=
  if 48 ≤ c.toNat ∧ c.toNat ≤ 57 then some (c.toNat - 48) else none

/-- goIsSpace models `unicode.IsSpace` on the Latin-1 range, the white-space
set used by `strings.TrimSpace` (all inputs of interest are ASCII). -/
def goIsSpace (c : Char) : Bool :=
  c = ' ' || c = '\t' || c = '\n' || c.toNat = 11 || c.toNat = 12 ||
    c = '\r' || c.toNat = 133 || c.toNat = 160

/-- goTrimSpace models `strings.TrimSpace`: drop white space from both
ends. -/
def goTrimSpace (cs : List Char) : List Char :=
  ((cs.dropWhile goIsSpace).reverse.dropWhile goIsSpace).reverse

/-- splitComma models `strings.Split(s, ",")`: the list of substrings of `s`
between consecutive commas.  It always returns at least one segment, and an
empty input yields one empty segment, exactly as in Go. -/
def splitComma : List Char → List (List Char)
  | [] => [[]]
  | c :: rest =>
    if c = ',' then [] :: splitComma rest
    else
      match splitComma rest with
      | [] => [[c]]
      | seg :: segs => (c :: seg) :: segs

/-- mkParsed is the record built by the straight-line tail of `ParseMessage`
once every read is in bounds: field `k` of the bit field is compared against
`'1'` (`m.Ready = bits[1] == '1'` and so on), `beeps` is the already
converted value of `bits[6:7]`, `Mode` is the one-character slice
`bits[18:19]`, `Zone` and `RawData` are the second and third segments
verbatim, and `KeypadMessage` is the fourth segment with its first and last
characters removed and the remainder trimmed
(`strings.TrimSpace(msg[1 : len(msg)-1])`). -/
def mkParsed (s : String) (bits zone raw msg : List Char) (beeps : Nat) :
    Message :=
  { UnparsedMessage := s
    Ready := bits.getD 1 ' ' == '1'
    ArmedAway := bits.getD 2 ' ' == '1'
    ArmedHome := bits.getD 3 ' ' == '1'
    BacklightOn := bits.getD 4 ' ' == '1'
    ProgrammingMode := bits.getD 5 ' ' == '1'
    Beeps := beeps
    ZoneBypassed := bits.getD 7 ' ' == '1'
    ACPower := bits.getD 8 ' ' == '1'
    ChimeEnabled := bits.getD 9 ' ' == '1'
    AlarmHasOccured := bits.getD 10 ' ' == '1'
    AlarmSounding := bits.getD 11 ' ' == '1'
    BatteryLow := bits.getD 12 ' ' == '1'
    EntryDelayDisabled := bits.getD 13 ' ' == '1'
    Fire := bits.getD 14 ' ' == '1'
    SystemIssue := bits.getD 15 ' ' == '1'
    PerimeterOnly := bits.getD 16 ' ' == '1'
    Mode := String.mk [bits.getD 18 ' ']
    Zone := String.mk zone
    RawData := String.mk raw
    KeypadMessage := String.mk (goTrimSpace ((msg.drop 1).dropLast)) }

/-- parse4 is the body of `ParseMessage` after the segment count check, on
segments `bits`, `zone`, `raw`, `msg`.  Reads happen in source order: the
indexings `bits[1] .. bits[5]` and the slice `bits[6:7]` panic exactly when
`len(bits) < 7`; then `strconv.Atoi(bits[6:7])` either fails, returning
`(Message{}, err)`, or yields the beep count; then `bits[7] .. bits[16]` and
`bits[18:19]` panic exactly when `len(bits) < 19`; finally
`msg[1 : len(msg)-1]` panics exactly when `len(msg) < 2`. -/
def parse4 (s : String) (bits zone raw msg : List Char) : ParseResult :=
  if bits.length < 7 then ParseResult.panic
  else
    match atoi1 (bits.getD 6 ' ') with
    | none => ParseResult.err Message.zero (GoError.atoiError [bits.getD 6 ' '])
    | some beeps =>
      if bits.length < 19 then ParseResult.panic
      else if msg.length < 2 then ParseResult.panic
      else ParseResult.ok (mkParsed s bits zone raw msg beeps)

/-- parseMessage models `ParseMessage`: split the line on commas, reject a
segment count other than four with the `errors.Errorf` value (returning the
zero message alongside it), otherwise decode the four segments. -/
def parseMessage (s : String) : ParseResult :=
  match splitComma s.data with
  | [bits, zone, raw, msg] => parse4 s bits zone raw msg
  | parts => ParseResult.err Message.zero (GoError.expected4Parts parts)

/-- dropCR models the `dropCR` helper of `bufio.ScanLines`: remove one
trailing carriage return, if present. -/
def dropCR (cs : List Char) : List Char :=
  if cs.getLast? = some '\r' then cs.dropLast else cs

/-- takeLine scans a buffer for the first newline; on success it returns the
bytes before it and the bytes after it.  This is the `IndexByte(data, '\n')`
step of `bufio.ScanLines`. -/
def takeLine : List Char → Option (List Char × List Char)
  | [] => none
  | c :: cs =>
    if c = '\n' then some ([], cs)
    else
      match takeLine cs with
      | none => none
      | some (tok, rest) => some (c :: tok, rest)

/-- scan1 models one call of `bufio.Scanner.Scan` with the `ScanLines` split
function.  `buf` is the data already read but not yet returned, `chunks` the
reads the underlying stream will still deliver, in order, before end of
stream.  If the buffer holds a newline a token is returned at once;
otherwise the scanner keeps reading; at end of stream a non-empty remainder
is returned as a final token and an empty one means EOF (`Scan` returns
false).  Returns the token and the new scanner state. -/
def scan1 : List Char → List (List Char) →
    Option (List Char × List Char × List (List Char))
  | buf, [] =>
    (match takeLine buf with
     | some (tok, rest) => some (dropCR tok, rest, [])
     | none => if buf = [] then none else some (dropCR buf, [], []))
  | buf, chunk :: chunks =>
    (match takeLine buf with
     | some (tok, rest) => some (dropCR tok, rest, chunk :: chunks)
     | none => scan1 (buf ++ chunk) chunks)

/-- readLoop drives `AlarmDecoder.Read` repeatedly: each successful scan
parses the returned line (`ParseMessage(ad.scanner.Text())`), and the loop
stops at EOF.  Fuel bounds the number of iterations; every produced token
consumes input, so total input length plus one is always enough. -/
def readLoop : Nat → List Char → List (List Char) → List ParseResult
  | 0, _, _ => []
  | n + 1, buf, chunks =>
    match scan1 buf chunks with
    | none => []
    | some (tok, buf2, chunks2) =>
      parseMessage (String.mk tok) :: readLoop n buf2 chunks2

/-- readerMessages is the full sequence of messages `AlarmDecoder.Read`
yields, in order, when the underlying stream delivers exactly the given
chunks and then closes. -/
def readerMessages (chunks : List (List Char)) : List ParseResult :=
  readLoop ((chunks.map List.length).sum + 1) [] chunks

example :
    parseMessage "[00000000011000003A--],,,\"test\"" =
      ParseResult.ok
        { UnparsedMessage := "[00000000011000003A--],,,\"test\""
          Ready := false, ArmedAway := false, ArmedHome := false
          BacklightOn := false, ProgrammingMode := false
          Beeps := 0
          ZoneBypassed := false, ACPower := false, ChimeEnabled := false
          AlarmHasOccured := true, AlarmSounding := true, BatteryLow := false
          EntryDelayDisabled := false, Fire := false, SystemIssue := false
          PerimeterOnly := false
          Mode := "A", Zone := "", RawData := "", KeypadMessage := "test" } := by
  decide

/-- c2Input is the byte sequence of the streaming test: one protocol line
terminated by a newline. -/
def c2Input : List Char := ("[00000000011000003A--],,,\"test\"\n").data

/-- c2Expected is the message the streaming test line decodes to. -/
def c2Expected : Message :=
  { UnparsedMessage := "[00000000011000003A--],,,\"test\""
    Ready := false, ArmedAway := false, ArmedHome := false
    BacklightOn := false, ProgrammingMode := false
    Beeps := 0
    ZoneBypassed := false, ACPower := false, ChimeEnabled := false
    AlarmHasOccured := true, AlarmSounding := true, BatteryLow := false
    EntryDelayDisabled := false, Fire := false, SystemIssue := false
    PerimeterOnly := false
    Mode := "A", Zone := "", RawData := "", KeypadMessage := "test" }

example : c2Input.length = 32 := by decide

example : readerMessages [c2Input] = [ParseResult.ok c2Expected] := by decide

example :
    readerMessages [c2Input.take 5, c2Input.drop 5] =
      [ParseResult.ok c2Expected] := by decide

/-- c2AllSplitsAgree checks every split point 0..32 of the 32-byte streaming
input: delivering the two chunks `take i` and `drop i` must yield exactly
one message, the expected one. -/
def c2AllSplitsAgree : Bool :=
  (List.range 33).all fun i =>
    decide (readerMessages [c2Input.take i, c2Input.drop i] =
      [ParseResult.ok c2Expected])

/-- parseMessage evaluated through a known four-way split. -/
lemma parseMessage_split4 (s : String) (a b c d : List Char)
    (h : splitComma s.data = [a, b, c, d]) :
    parseMessage s = parse4 s a b c d := by
  unfold parseMessage
  rw [h]

/-- atoi1 on a decimal digit returns its value. -/
lemma atoi1_digit (c : Char) (h : 48 ≤ c.toNat ∧ c.toNat ≤ 57) :
    atoi1 c = some (c.toNat - 48) := by
  unfold atoi1
  rw [if_pos h]

/-- parse4 succeeds when the bit field reaches position 18, position 6 holds
a decimal digit, and the keypad segment has at least the two quote
characters; the result is the record of field assignments. -/
lemma parse4_ok (s : String) (bits zone raw msg : List Char)
    (h19 : 19 ≤ bits.length)
    (hd : 48 ≤ (bits.getD 6 ' ').toNat ∧ (bits.getD 6 ' ').toNat ≤ 57)
    (h2 : 2 ≤ msg.length) :
    parse4 s bits zone raw msg =
      ParseResult.ok (mkParsed s bits zone raw msg
        ((bits.getD 6 ' ').toNat - 48)) := by
  unfold parse4
  rw [if_neg (by omega), atoi1_digit _ hd]
  dsimp only
  rw [if_neg (by omega), if_neg (by omega)]

/-- parse4 returns the strconv error, alongside the zero message, when the
bit field reaches position 6 but that position is not a decimal digit. -/
lemma parse4_atoiErr (s : String) (bits zone raw msg : List Char)
    (h7 : 7 ≤ bits.length)
    (hd : ¬(48 ≤ (bits.getD 6 ' ').toNat ∧ (bits.getD 6 ' ').toNat ≤ 57)) :
    parse4 s bits zone raw msg =
      ParseResult.err Message.zero (GoError.atoiError [bits.getD 6 ' ']) := by
  unfold parse4 atoi1
  rw [if_neg (by omega), if_neg hd]

/-- boolFlagPositions lists the sixteen boolean positions of the bit field:
1 through 16, except the beep-count position 6. -/
def boolFlagPositions : List Nat :=
  [1, 2, 3, 4, 5, 7, 8, 9, 10, 11, 12, 13, 14, 15, 16]

/-- flagAt reads the boolean flag of a message that the bit-field position
`k` feeds, in the numbering of the Go source comments. -/
def flagAt (m : Message) : Nat → Bool
  | 1 => m.Ready
  | 2 => m.ArmedAway
  | 3 => m.ArmedHome
  | 4 => m.BacklightOn
  | 5 => m.ProgrammingMode
  | 7 => m.ZoneBypassed
  | 8 => m.ACPower
  | 9 => m.ChimeEnabled
  | 10 => m.AlarmHasOccured
  | 11 => m.AlarmSounding
  | 12 => m.BatteryLow
  | 13 => m.EntryDelayDisabled
  | 14 => m.Fire
  | 15 => m.SystemIssue
  | 16 => m.PerimeterOnly
  | _ => false

/-- Every boolean flag of a successfully parsed message is the strict
equality test of its bit-field position against the character 1. -/
lemma flagAt_mkParsed (s : String) (bits zone raw msg : List Char)
    (beeps : Nat) (j : Nat) (hj : j ∈ boolFlagPositions) :
    flagAt (mkParsed s bits zone raw msg beeps) j =
      (bits.getD j ' ' == '1') := by
  fin_cases hj <;> rfl

/-- Claim C1, code behaviour: on a four-segment line whose bit-field segment
is 10 characters long (shorter than the 19 needed to reach position 18) and
has a digit at position 6, `ParseMessage` hits an index-out-of-range runtime
fault at `bits[10]` instead of returning any error value, so no
`TruncatedBitField` (or any other) parse error is produced. -/
theorem claimC1_truncated_bitfield_panics :
    parseMessage "[000000000,,,\"ab\"" = ParseResult.panic := by decide

/-- Claim C5, code behaviour: on a four-segment line whose fourth segment is
the single character `x` (shorter than 2), `ParseMessage` hits a
slice-out-of-range runtime fault at `msg[1 : len(msg)-1]` instead of
returning any error value, so no `MalformedKeypadText` (or any other) parse
error is produced. -/
theorem claimC5_short_keypad_panics :
    parseMessage "0000000000000000000,,,x" = ParseResult.panic := by decide

/-- Claim C3: a line whose comma split has a segment count other than four
yields the malformed-frame error value carrying the actual segments seen,
alongside the zero message, with no field populated from the input. -/
theorem claimC3_malformed_frame (s : String) (parts : List (List Char))
    (h : splitComma s.data = parts) (hn : parts.length ≠ 4) :
    parseMessage s =
      ParseResult.err Message.zero (GoError.expected4Parts parts) := by
  rcases parts with _ | ⟨a, _ | ⟨b, _ | ⟨c, _ | ⟨d, _ | ⟨e, t⟩⟩⟩⟩⟩ <;>
    first
      | exact absurd rfl hn
      | (unfold parseMessage; rw [h])

/-- Claim C3 witness: the two-segment line `a,b`. -/
theorem claimC3_malformed_frame_witness :
    parseMessage "a,b" =
      ParseResult.err Message.zero
        (GoError.expected4Parts [['a'], ['b']]) :=
  claimC3_malformed_frame "a,b" [['a'], ['b']] (by decide) (by decide)

/-- Claim C4: on a well-formed four-segment line with a sufficiently long
bit field, a character `'0'..'7'` at position 6 makes the parse succeed with
`Beeps` equal to that digit's numeric value (which is at most 7), while a
character that is not a decimal digit at position 6 makes `ParseMessage`
return the beep-conversion error, alongside the zero message. -/
theorem claimC4_beep_count (s : String) (a b c d : List Char)
    (h : splitComma s.data = [a, b, c, d])
    (h19 : 19 ≤ a.length) (h2 : 2 ≤ d.length) :
    (a.getD 6 ' ' ∈ ['0', '1', '2', '3', '4', '5', '6', '7'] →
      ∃ m, parseMessage s = ParseResult.ok m ∧
        m.Beeps = (a.getD 6 ' ').toNat - 48 ∧ m.Beeps ≤ 7) ∧
    (¬(48 ≤ (a.getD 6 ' ').toNat ∧ (a.getD 6 ' ').toNat ≤ 57) →
      parseMessage s =
        ParseResult.err Message.zero (GoError.atoiError [a.getD 6 ' '])) := by
  constructor
  · intro hdig
    have hdm : a.getD 6 ' ' = '0' ∨ a.getD 6 ' ' = '1' ∨ a.getD 6 ' ' = '2' ∨
        a.getD 6 ' ' = '3' ∨ a.getD 6 ' ' = '4' ∨ a.getD 6 ' ' = '5' ∨
        a.getD 6 ' ' = '6' ∨ a.getD 6 ' ' = '7' := by simpa using hdig
    have hd : 48 ≤ (a.getD 6 ' ').toNat ∧ (a.getD 6 ' ').toNat ≤ 55 := by
      rcases hdm with hc | hc | hc | hc | hc | hc | hc | hc <;> rw [hc] <;>
        decide
    refine ⟨mkParsed s a b c d ((a.getD 6 ' ').toNat - 48), ?_, rfl, ?_⟩
    · rw [parseMessage_split4 s a b c d h,
        parse4_ok s a b c d h19 ⟨hd.1, by omega⟩ h2]
    · show (a.getD 6 ' ').toNat - 48 ≤ 7
      omega
  · intro hnd
    rw [parseMessage_split4 s a b c d h, parse4_atoiErr s a b c d (by omega) hnd]

/-- Claim C4 witness: the digit 5 at position 6 parses with five beeps, and
the letter x at position 6 yields the conversion error. -/
theorem claimC4_beep_count_witness :
    (∃ m, parseMessage "[00000500000000000A,,,\"t\"" = ParseResult.ok m ∧
      m.Beeps = 5) ∧
    parseMessage "[00000x00000000000A,,,\"t\"" =
      ParseResult.err Message.zero (GoError.atoiError ['x']) := by
  constructor
  · obtain ⟨m, h1, h2, h3⟩ :=
      (claimC4_beep_count "[00000500000000000A,,,\"t\""
        ("[00000500000000000A".data) [] [] ("\"t\"".data)
        (by decide) (by decide) (by decide)).1 (by decide)
    exact ⟨m, h1, h2.trans (by decide)⟩
  · exact
      (claimC4_beep_count "[00000x00000000000A,,,\"t\""
        ("[00000x00000000000A".data) [] [] ("\"t\"".data)
        (by decide) (by decide) (by decide)).2 (by decide)

/-- Claim C6: on a well-formed four-segment line whose bit field carries the
character 0 at every boolean position except the character 1 at position
`k`, the parse succeeds and exactly the flag of position `k` is true, every
other boolean flag false. -/
theorem claimC6_single_flag (s : String) (a b c d : List Char) (k : Nat)
    (h : splitComma s.data = [a, b, c, d])
    (h19 : 19 ≤ a.length) (h2 : 2 ≤ d.length)
    (hd : 48 ≤ (a.getD 6 ' ').toNat ∧ (a.getD 6 ' ').toNat ≤ 57)
    (_hk : k ∈ boolFlagPositions)
    (hbits : ∀ j ∈ boolFlagPositions,
      a.getD j ' ' = if j = k then '1' else '0') :
    ∃ m, parseMessage s = ParseResult.ok m ∧
      ∀ j ∈ boolFlagPositions, (flagAt m j = true ↔ j = k) := by
  refine ⟨mkParsed s a b c d ((a.getD 6 ' ').toNat - 48),
    by rw [parseMessage_split4 s a b c d h, parse4_ok s a b c d h19 hd h2],
    ?_⟩
  intro j hj
  rw [flagAt_mkParsed s a b c d _ j hj, hbits j hj]
  by_cases hjk : j = k
  · simp [hjk]
  · simp [hjk]

/-- Claim C6 witness: position 10, the sticky alarm-occurred flag. -/
theorem claimC6_single_flag_witness :
    ∃ m, parseMessage "[00000000010000000A,,,\"t\"" = ParseResult.ok m ∧
      ∀ j ∈ boolFlagPositions, (flagAt m j = true ↔ j = 10) :=
  claimC6_single_flag "[00000000010000000A,,,\"t\""
    ("[00000000010000000A".data) [] [] ("\"t\"".data) 10
    (by decide) (by decide) (by decide) (by decide) (by decide) (by decide)

/-- Claim C7: on a well-formed four-segment line, the keypad text is the
fourth segment with exactly one leading and one trailing character (the
quote marks) removed and the remainder trimmed of leading and trailing white
space, the internal spacing untouched. -/
theorem claimC7_keypad_text_strip (s : String) (a b c d : List Char)
    (h : splitComma s.data = [a, b, c, d])
    (h19 : 19 ≤ a.length)
    (hd : 48 ≤ (a.getD 6 ' ').toNat ∧ (a.getD 6 ' ').toNat ≤ 57)
    (h2 : 2 ≤ d.length) :
    ∃ m, parseMessage s = ParseResult.ok m ∧
      m.KeypadMessage = String.mk (goTrimSpace ((d.drop 1).dropLast)) :=
  ⟨mkParsed s a b c d ((a.getD 6 ' ').toNat - 48),
    by rw [parseMessage_split4 s a b c d h, parse4_ok s a b c d h19 hd h2],
    rfl⟩

/-- Claim C7 witness: the quoted segment of the repository's own test case,
whose outer quotes are removed and whose trailing double space is trimmed
while the internal double space survives. -/
theorem claimC7_keypad_text_strip_witness :
    ∃ m,
      parseMessage "[10000601100000003A--],045,[f71f00000045001c28020000000000],\"****DISARMED****  READY TO ARM  \"" =
        ParseResult.ok m ∧
      m.KeypadMessage = "****DISARMED****  READY TO ARM" := by
  obtain ⟨m, h1, h2⟩ :=
    claimC7_keypad_text_strip
      "[10000601100000003A--],045,[f71f00000045001c28020000000000],\"****DISARMED****  READY TO ARM  \""
      ("[10000601100000003A--]".data) ("045".data)
      ("[f71f00000045001c28020000000000]".data)
      ("\"****DISARMED****  READY TO ARM  \"".data)
      (by decide) (by decide) (by decide) (by decide)
  exact ⟨m, h1, h2.trans (by decide)⟩

/-- Claim C8: the parser accepts any decimal digit at the beep position, not
only 0 through 7: a bit field with the digit 8 or 9 at position 6 parses
successfully with `Beeps` equal to 8 or 9. -/
theorem claimC8_beeps_eight_nine (s : String) (a b c d : List Char)
    (h : splitComma s.data = [a, b, c, d])
    (h19 : 19 ≤ a.length) (h2 : 2 ≤ d.length)
    (hdig : a.getD 6 ' ' = '8' ∨ a.getD 6 ' ' = '9') :
    ∃ m, parseMessage s = ParseResult.ok m ∧
      m.Beeps = (a.getD 6 ' ').toNat - 48 ∧
      (m.Beeps = 8 ∨ m.Beeps = 9) := by
  have hd : 48 ≤ (a.getD 6 ' ').toNat ∧ (a.getD 6 ' ').toNat ≤ 57 := by
    rcases hdig with hc | hc <;> rw [hc] <;> decide
  refine ⟨mkParsed s a b c d ((a.getD 6 ' ').toNat - 48),
    by rw [parseMessage_split4 s a b c d h, parse4_ok s a b c d h19 hd h2],
    rfl, ?_⟩
  show (a.getD 6 ' ').toNat - 48 = 8 ∨ (a.getD 6 ' ').toNat - 48 = 9
  rcases hdig with hc | hc <;> rw [hc]
  · exact Or.inl (by decide)
  · exact Or.inr (by decide)

/-- Claim C8 witness: the digit 9 at position 6 parses with nine beeps. -/
theorem claimC8_beeps_eight_nine_witness :
    ∃ m, parseMessage "[00000900000000000A,,,\"t\"" = ParseResult.ok m ∧
      m.Beeps = ("[00000900000000000A".data.getD 6 ' ').toNat - 48 ∧
      (m.Beeps = 8 ∨ m.Beeps = 9) :=
  claimC8_beeps_eight_nine "[00000900000000000A,,,\"t\""
    ("[00000900000000000A".data) [] [] ("\"t\"".data)
    (by decide) (by decide) (by decide) (Or.inr (by decide))

/-- Claim C10: the first and last characters of the fourth segment are
removed unconditionally — nothing requires them to be quote marks; any
four-segment line with a long-enough bit field, a digit at the beep
position, and a fourth segment of at least two characters parses
successfully, the keypad text being the trimmed interior of that segment. -/
theorem claimC10_unquoted_keypad (s : String) (a b c d : List Char)
    (h : splitComma s.data = [a, b, c, d])
    (h19 : 19 ≤ a.length)
    (hd : 48 ≤ (a.getD 6 ' ').toNat ∧ (a.getD 6 ' ').toNat ≤ 57)
    (h2 : 2 ≤ d.length) :
    ∃ m, parseMessage s = ParseResult.ok m ∧
      m.KeypadMessage.data = goTrimSpace ((d.drop 1).dropLast) :=
  ⟨mkParsed s a b c d ((a.getD 6 ' ').toNat - 48),
    by rw [parseMessage_split4 s a b c d h, parse4_ok s a b c d h19 hd h2],
    rfl⟩

/-- Claim C10 witness: the unquoted fourth segment xtestx parses with keypad
text test. -/
theorem claimC10_unquoted_keypad_witness :
    ∃ m, parseMessage "[00000000000000000A],,,xtestx" = ParseResult.ok m ∧
      m.KeypadMessage.data = "test".data := by
  obtain ⟨m, h1, h2⟩ :=
    claimC10_unquoted_keypad "[00000000000000000A],,,xtestx"
      ("[00000000000000000A]".data) [] [] ("xtestx".data)
      (by decide) (by decide) (by decide) (by decide)
  exact ⟨m, h1, h2.trans (by decide)⟩

/-- Claim C2: feeding the Reader the 32-byte sequence of one newline
terminated protocol line in two chunks, split at any of the 33 byte
offsets, yields exactly the same single parsed message as feeding it in one
chunk: alarm sounding, alarm occurred, mode A, keypad text test, empty
zone; the line is parsed exactly once in every run. -/
theorem claimC2_chunked_stream_equivalence :
    c2AllSplitsAgree = true ∧
      readerMessages [c2Input] = [ParseResult.ok c2Expected] :=
  ⟨by decide, by decide⟩

/-- inspectedPositions lists every bit-field position `ParseMessage` reads:
1 through 16 and 18.  Position 0 (the bracket), position 17 (the hex
nibble) and positions 19 onwards are never inspected. -/
def inspectedPositions : List Nat :=
  [1, 2, 3, 4, 5, 6, 7, 8, 9, 10, 11, 12, 13, 14, 15, 16, 18]

/-- scrub erases the UnparsedMessage field of the message carried by a
parse result, leaving everything else untouched. -/
def scrub : ParseResult → ParseResult
  | ParseResult.ok m => ParseResult.ok { m with UnparsedMessage := "" }
  | ParseResult.err m e => ParseResult.err { m with UnparsedMessage := "" } e
  | ParseResult.panic => ParseResult.panic

/-- Claim C9: two lines that split into four segments with equal second,
third and fourth segments, whose first segments agree at every inspected
position (1 through 16 and 18, out-of-range agreeing with out-of-range),
parse to identical outcomes in every field except UnparsedMessage — the
bracket position 0, the hex-nibble position 17 and positions 19 onwards are
never inspected. -/
theorem claimC9_uninspected_positions (s1 s2 : String)
    (a1 a2 b c d : List Char)
    (h1 : splitComma s1.data = [a1, b, c, d])
    (h2 : splitComma s2.data = [a2, b, c, d])
    (hagree : ∀ i ∈ inspectedPositions, a1[i]? = a2[i]?) :
    scrub (parseMessage s1) = scrub (parseMessage s2) := by
  rw [parseMessage_split4 s1 a1 b c d h1, parseMessage_split4 s2 a2 b c d h2]
  have hnone : ∀ i ∈ inspectedPositions,
      (a1.length ≤ i ↔ a2.length ≤ i) := by
    intro i hi
    rw [← List.getElem?_eq_none_iff, ← List.getElem?_eq_none_iff,
      hagree i hi]
  have hgetD : ∀ i ∈ inspectedPositions, a1.getD i ' ' = a2.getD i ' ' := by
    intro i hi
    rw [List.getD_eq_getElem?_getD, List.getD_eq_getElem?_getD, hagree i hi]
  have hn6 := hnone 6 (by decide)
  have hn18 := hnone 18 (by decide)
  unfold parse4
  by_cases hb7 : a1.length < 7
  · have hc7 : a2.length < 7 := by omega
    rw [if_pos hb7, if_pos hc7]
  · have hc7 : ¬a2.length < 7 := by omega
    rw [if_neg hb7, if_neg hc7, hgetD 6 (by decide)]
    cases hA : atoi1 (a2.getD 6 ' ') with
    | none => rfl
    | some beeps =>
      dsimp only
      by_cases hb19 : a1.length < 19
      · have hc19 : a2.length < 19 := by omega
        rw [if_pos hb19, if_pos hc19]
      · have hc19 : ¬a2.length < 19 := by omega
        rw [if_neg hb19, if_neg hc19]
        by_cases hm2 : d.length < 2
        · rw [if_pos hm2, if_pos hm2]
        · rw [if_neg hm2, if_neg hm2]
          unfold scrub mkParsed
          rw [hgetD 1 (by decide), hgetD 2 (by decide), hgetD 3 (by decide),
            hgetD 4 (by decide), hgetD 5 (by decide), hgetD 7 (by decide),
            hgetD 8 (by decide), hgetD 9 (by decide), hgetD 10 (by decide),
            hgetD 11 (by decide), hgetD 12 (by decide), hgetD 13 (by decide),
            hgetD 14 (by decide), hgetD 15 (by decide), hgetD 16 (by decide),
            hgetD 18 (by decide)]

/-- Claim C9 witness: two lines whose bit fields differ at position 0 (no
opening bracket on the second), at position 17 and from position 19 on,
including in length, decode identically apart from UnparsedMessage. -/
theorem claimC9_uninspected_positions_witness :
    scrub (parseMessage "(0000000000000000ZA!!,045,xyz,\"hi \"") =
      scrub (parseMessage "Q0000000000000000-A,045,xyz,\"hi \"") :=
  claimC9_uninspected_positions
    "(0000000000000000ZA!!,045,xyz,\"hi \""
    "Q0000000000000000-A,045,xyz,\"hi \""
    ("(0000000000000000ZA!!".data) ("Q0000000000000000-A".data)
    ("045".data) ("xyz".data) ("\"hi \"".data)
    (by decide) (by decide) (by decide)
